import Mathlib

/-!
Verification of the Smart-PDF-I-Gen client core (src/src/App.tsx).

The file shallowly embeds the logical core of the client:

* `parseSections` — the regex-driven section segmenter (App.tsx lines 34-51),
  scanning the raw summary for bolded titles written as TEXT wrapped in a pair
  of double asterisks and cutting the text into titled sections.
* `handleSummarize` — the response interpreter (App.tsx lines 149-189): the
  state transition performed on the component state by one summarization call,
  for both the success body and the thrown-error body.
* `validateAdmin` and the admin pill click handler (App.tsx lines 68-79 and
  283-307) — the admin-session validation logic.

Strings are modelled as `List Char` in the segmenter (where we recurse over
characters) and as `String` in the interpreter.  JavaScript truthiness of the
string and number fields is modelled explicitly (`jsOrStr`, `jsOrNum`); the
truthiness of the `paywall` field is modelled by a `Bool` that is `false` when
the field is absent or falsy.
-/

namespace SmartPdf

/-- JavaScript line terminators: the characters NOT matched by `.` in a regex
without the dotAll flag (used by the title regex in `parseSections`). -/
def isNl (c : Char) : Bool :=
  c == '\n' || c == '\r' || c == '\u2028' || c == '\u2029'

/-- White space removed by JavaScript `String.prototype.trim` (the ASCII white
space characters plus NBSP, BOM and the two unicode line separators; the
remaining rare Zs code points are omitted, no input in this development uses
them). -/
def isWs (c : Char) : Bool :=
  c == ' ' || c == '\t' || c == '\n' || c == '\r' || c == '\x0b' || c == '\x0c'
    || c == '\u00A0' || c == '\uFEFF' || c == '\u2028' || c == '\u2029'

/-- JavaScript `raw.trim()` on a character list: drop white space at both
ends. -/
def trimL (l : List Char) : List Char :=
  ((l.dropWhile isWs).reverse.dropWhile isWs).reverse

/-- `trim` on `String`, used by the admin pill handler (`t.trim()`). -/
def trimS (s : String) : String := String.mk (trimL s.data)

/-!
The regex of `parseSections` (App.tsx line 35) is `\*\*(.+?)\*\*` with the
global flag.  `exec` repeatedly finds the leftmost match at or after
`lastIndex`: an opening `**`, then a lazily (shortest-first) matched non-empty
group of characters none of which is a line terminator, then a closing `**`.
We embed the matcher directly:

* `closeLoop acc l` — the lazy group extension: `acc` holds the group read so
  far (reversed); at each step the engine first tries to close with `**` and
  otherwise extends the group by one non-terminator character.
* `scanClose l` — enter the group (it must contain at least one character).
* `tryMatchAt l` — try to match the whole pattern exactly at the head of `l`.
* `findMatch l` — leftmost match: returns the text before the match, the
  group (the title), and the remainder after the closing `**`.
-/

def closeLoop (acc : List Char) : List Char → Option (List Char × List Char)
  | c1 :: c2 :: rest =>
    if c1 = '*' ∧ c2 = '*' then some (acc.reverse, rest)
    else if isNl c1 then none
    else closeLoop (c1 :: acc) (c2 :: rest)
  | _ => none

def scanClose : List Char → Option (List Char × List Char)
  | [] => none
  | c :: rest => if isNl c then none else closeLoop [c] rest

def tryMatchAt : List Char → Option (List Char × List Char)
  | c1 :: c2 :: rest => if c1 = '*' ∧ c2 = '*' then scanClose rest else none
  | _ => none

def findMatch : List Char → Option (List Char × List Char × List Char)
  | [] => none
  | c :: rest =>
    match tryMatchAt (c :: rest) with
    | some (t, r) => some ([], t, r)
    | none =>
      match findMatch rest with
      | some (p, t, r) => some (c :: p, t, r)
      | none => none

/-- The `while ((match = regex.exec(raw)) !== null)` loop of `parseSections`
restated as recursion on the text after the previous match.  `collectF` lists
every match: for each it records the title group together with the raw text
span between the end of that match and the start of the next one (for the last
match, the rest of the input) — exactly the spans the loop later assigns (in
trimmed form) as the sections' contents.  It also returns the text before the
first match, which the loop never assigns to any section.  The `fuel`
parameter only makes the recursion structural; every match consumes at least
five characters, so `fuel = length of the input` always suffices. -/
def collectF : Nat → List Char → Option (List Char × List (List Char × List Char))
  | 0, _ => none
  | fuel + 1, l =>
    match findMatch l with
    | none => none
    | some (p, t, r) =>
      match collectF fuel r with
      | none => some (p, [(t, r)])
      | some (lead2, pairs) => some (p, (t, lead2) :: pairs)

/-- All matches of the title regex in `l` (see `collectF`): `none` when the
regex never matches. -/
def collect (l : List Char) : Option (List Char × List (List Char × List Char)) :=
  collectF l.length l

/-- A display section: App.tsx line 38. -/
structure Section where
  title : List Char
  content : List Char
deriving DecidableEq, Repr

/-- `parseSections` (App.tsx lines 34-51): when the regex never matches,
a single untitled section whose content is the raw input (line 49, untrimmed);
otherwise one section per match, titled by the match group, whose content is
the trimmed span up to the next match (lines 39-48). -/
def parseSections (l : List Char) : List Section :=
  match collect l with
  | none => [⟨[], l⟩]
  | some (_, pairs) => pairs.map fun q => Section.mk q.1 (trimL q.2)

/-- The reconstruction of the raw spans from the matches: each title wrapped
back in its markers, followed by the raw (untrimmed) span that follows it. -/
def glue : List (List Char × List Char) → List Char
  | [] => []
  | (t, g) :: rest => '*' :: '*' :: (t ++ '*' :: '*' :: (g ++ glue rest))

/-- The reconstruction named by claim C3: every returned section's title
wrapped back in the original markers, followed by its content, concatenated in
order. -/
def glueSections : List Section → List Char
  | [] => []
  | s :: rest => '*' :: '*' :: (s.title ++ '*' :: '*' :: (s.content ++ glueSections rest))

/-- A sample raw text with leading text and two titled sections, used to
instantiate the segmenter theorems. -/
def sampleRaw : List Char :=
  ['a', ' ', '*', '*', 'T', '*', '*', ' ', 'x', ' ', '*', '*', 'U', '*', '*', 'y']

/-- The matches of the title regex in `sampleRaw`. -/
def samplePairs : List (List Char × List Char) :=
  [(['T'], [' ', 'x', ' ']), (['U'], ['y'])]

/-!
Response interpreter: the state transition performed by `handleSummarize`
(App.tsx lines 149-189) on the component state, and the outcome classification
the rendered view derives from that state (error banner line 478, paywall
notice line 481, sections lines 484-507, placeholder line 486).
-/

/-- JavaScript string disjunction `a || b`: the empty string is falsy. -/
def jsOrStr (a b : String) : String := if a = "" then b else a

/-- JavaScript `o || b` for an optional string field: an absent or empty
field falls through to the default. -/
def jsOrOptStr (o : Option String) (b : String) : String :=
  match o with
  | some s => jsOrStr s b
  | none => b

/-- JavaScript `o || d` for an optional number field: an absent or zero field
falls through to the default. -/
def jsOrNum (o : Option Int) (d : Int) : Int :=
  match o with
  | some n => if n = 0 then d else n
  | none => d

/-- The JSON-shaped body of one summarizer response (success body, or the
body carried by a thrown HTTP error).  `paywall` holds the truthiness of the
`paywall` field, `false` when the field is absent or falsy; the other fields
are `none` when absent. -/
structure RespBody where
  summary : Option String
  ai_summary : Option String
  nb_words : Option Int
  nb_pages : Option Int
  paywall : Bool
  error : Option String
deriving DecidableEq, Repr

/-- The component state touched by `handleSummarize` (App.tsx lines 90-97).
The upload, drag and carousel state is untouched by the interpreter and
omitted. -/
structure AppState where
  summaryRaw : String
  aiSummary : String
  processingTime : String
  wordCount : Int
  nbPages : Option Int
  error : String
  paywall : Bool
  isProcessing : Bool
deriving DecidableEq, Repr

/-- The initial component state (the `useState` initializers, lines 85-97). -/
def initialState : AppState :=
  { summaryRaw := "", aiSummary := "", processingTime := "", wordCount := 0,
    nbPages := none, error := "", paywall := false, isProcessing := false }

/-- The two ways the awaited summarization call can resolve: a success body
(with the elapsed-time string computed by the caller from wall-clock
timestamps), or a thrown error optionally carrying a response body
(`err?.response?.data`; `none` when the error has no decoded body). -/
inductive CallResult where
  | success (elapsed : String) (body : RespBody)
  | failure (errData : Option RespBody)
deriving DecidableEq, Repr

/-- Truthiness of `err?.response?.data?.paywall` (App.tsx line 175). -/
def paywallTruthy (errData : Option RespBody) : Bool :=
  match errData with
  | some b => b.paywall
  | none => false

/-- The fixed generic failure message of App.tsx line 183. -/
def genericErrorMsg : String :=
  "PDF analysis failed. Please try again or use a smaller file."

/-- `handleSummarize` (App.tsx lines 149-189) as a state transition: clear the
error and paywall flags (lines 152-153), then either store the success body's
fields (lines 168-173), or, on a thrown error, take the paywall branch (lines
176-180) or the error branch (lines 181-184); `finally` clears the in-flight
flag (line 187).  The guard on a selected file (line 150) and the request
construction are outside the interpreted logic. -/
def handleSummarize (st : AppState) (res : CallResult) : AppState :=
  let st1 := { st with error := "", paywall := false, isProcessing := true }
  match res with
  | CallResult.success elapsed body =>
    { st1 with
      processingTime := elapsed,
      summaryRaw := jsOrOptStr body.summary "",
      aiSummary := jsOrOptStr body.ai_summary "",
      wordCount := jsOrNum body.nb_words 0,
      nbPages := body.nb_pages,
      paywall := body.paywall,
      isProcessing := false }
  | CallResult.failure errData =>
    if paywallTruthy errData then
      { st1 with
        paywall := true,
        nbPages := errData.bind RespBody.nb_pages,
        wordCount := (errData.bind RespBody.nb_words).getD 0,
        error := "",
        isProcessing := false }
    else
      { st1 with
        error := jsOrOptStr (errData.bind RespBody.error) genericErrorMsg,
        isProcessing := false }

/-- The text the view displays and copies: `aiSummary || summaryRaw || ""`
(App.tsx lines 193 and 490). -/
def displayText (st : AppState) : String :=
  jsOrStr (jsOrStr st.aiSummary st.summaryRaw) ""

/-- The spec's four-way outcome classification of the state after one call.
Derived from what the view renders: the error banner when `error` is set
(line 478), the paywall notice when `paywall` is set (line 481 — the admin
bypass only hides the notice, it does not change the classification), the
sections when there is display text, and the empty placeholder otherwise
(lines 486-490).  `handleSummarize` never leaves both `error` and `paywall`
set. -/
inductive OutcomeKind where
  | Success
  | PaywallBlocked
  | Error
  | Empty
deriving DecidableEq, Repr

/-- Classify the state after a call into an `OutcomeKind`. -/
def outcome (st : AppState) : OutcomeKind :=
  if st.error ≠ "" then OutcomeKind.Error
  else if st.paywall then OutcomeKind.PaywallBlocked
  else if displayText st ≠ "" then OutcomeKind.Success
  else OutcomeKind.Empty

/-!
Admin session: server-side validation of the locally stored token
(`validateAdmin`, App.tsx lines 68-79) and the admin pill click handler
(lines 283-307).  The remote check endpoint is an external collaborator,
modelled as a function from the forwarded token to how the call resolves.
-/

/-- How the remote admin check resolves: a response whose `admin` field has
the given truthiness, or a thrown transport or auth failure. -/
inductive AuthResult where
  | ok (admin : Bool)
  | fail

/-- `validateAdmin` (App.tsx lines 68-79): read the token from storage;
a missing (or empty, hence falsy) token returns false without any remote
call; otherwise forward the token to the check endpoint, returning the
truthiness of the response's `admin` field, and false if the call throws. -/
def validateAdmin (stored : Option String) (check : String → AuthResult) : Bool :=
  match stored with
  | none => false
  | some tok =>
    if tok = "" then false
    else
      match check tok with
      | AuthResult.ok b => b
      | AuthResult.fail => false

/-- The admin-session state: the persisted token (storage key
ADMIN_BYPASS_TOKEN) and the `adminOn` component flag. -/
structure AdminModel where
  stored : Option String
  adminOn : Bool
deriving DecidableEq, Repr

/-- The admin pill click handler (App.tsx lines 283-307): when the flag is on,
clear the token and the flag; otherwise, given the prompt's result (`none`
when cancelled), ignore blank input, else persist the trimmed token and set
the flag to the result of re-running `validateAdmin` against storage. -/
def adminPillClick (m : AdminModel) (input : Option String)
    (check : String → AuthResult) : AdminModel :=
  if m.adminOn then { stored := none, adminOn := false }
  else
    match input with
    | none => m
    | some t =>
      if t = "" ∨ trimS t = "" then m
      else
        { stored := some (trimS t),
          adminOn := validateAdmin (some (trimS t)) check }


/-- Written from the spec's words (section 4.2 step 1), to be compared with
the code path: the display text is the AI summary when non-empty, else the
plain summary, else the empty string. -/
def displayTextSpec (b : RespBody) : String :=
  if b.ai_summary.getD "" ≠ "" then b.ai_summary.getD ""
  else if b.summary.getD "" ≠ "" then b.summary.getD ""
  else ""

/-- Written from the spec's words as amended, to be compared with the code
path: the displayed failure message is the error body's message when a
non-empty one is present, else the fixed generic message. -/
def errorMessageSpec (e : Option String) : String :=
  match e with
  | some m => if m = "" then genericErrorMsg else m
  | none => genericErrorMsg

/-- A paywalled body as in the spec's HTTP 413 scenario: paywall flag truthy,
120 pages, 80000 words, no text and no message. -/
def paywallBody : RespBody :=
  { summary := none, ai_summary := none, nb_words := some 80000,
    nb_pages := some 120, paywall := true, error := none }

/-- An error body with no fields at all (paywall flag falsy, no message). -/
def emptyBody : RespBody :=
  { summary := none, ai_summary := none, nb_words := none, nb_pages := none,
    paywall := false, error := none }

/-- An error body carrying a server-provided message and no paywall flag. -/
def msgBody : RespBody :=
  { summary := none, ai_summary := none, nb_words := none, nb_pages := none,
    paywall := false, error := some "boom" }

/-- The spec's display-text scenario body: empty AI summary, plain summary
present, ten words, no paywall. -/
def plainBody : RespBody :=
  { summary := some "plain", ai_summary := some "", nb_words := some 10,
    nb_pages := none, paywall := false, error := none }

/-- A state holding the results of an earlier successful summarization, used
to instantiate the frame theorems. -/
def busyState : AppState :=
  { summaryRaw := "s", aiSummary := "a", processingTime := "1.0s", wordCount := 5,
    nbPages := some 2, error := "", paywall := false, isProcessing := false }

theorem closeLoop_decomp : ∀ (l acc g r : List Char),
    closeLoop acc l = some (g, r) → acc.reverse ++ l = g ++ '*' :: '*' :: r := by
  intro l
  induction l with
  | nil => intro acc g r h; simp [closeLoop] at h
  | cons c1 rest ih =>
    intro acc g r h
    cases rest with
    | nil => simp [closeLoop] at h
    | cons c2 rest2 =>
      simp only [closeLoop] at h
      split at h
      · rename_i hc
        obtain ⟨rfl, rfl⟩ := hc
        simp at h
        obtain ⟨rfl, rfl⟩ := h
        simp
      · split at h
        · exact absurd h (by simp)
        · have h2 := ih (c1 :: acc) g r h
          simp only [List.reverse_cons, List.append_assoc] at h2
          simpa using h2

theorem closeLoop_acc_le : ∀ (l acc g r : List Char),
    closeLoop acc l = some (g, r) → acc.length ≤ g.length := by
  intro l
  induction l with
  | nil => intro acc g r h; simp [closeLoop] at h
  | cons c1 rest ih =>
    intro acc g r h
    cases rest with
    | nil => simp [closeLoop] at h
    | cons c2 rest2 =>
      simp only [closeLoop] at h
      split at h
      · simp at h
        obtain ⟨rfl, rfl⟩ := h
        simp
      · split at h
        · exact absurd h (by simp)
        · have h2 := ih (c1 :: acc) g r h
          simp at h2
          omega

theorem scanClose_decomp (l g r : List Char) (h : scanClose l = some (g, r)) :
    l = g ++ '*' :: '*' :: r ∧ g ≠ [] := by
  cases l with
  | nil => simp [scanClose] at h
  | cons c rest =>
    simp only [scanClose] at h
    split at h
    · exact absurd h (by simp)
    · constructor
      · have h2 := closeLoop_decomp rest [c] g r h
        simpa using h2
      · have h3 := closeLoop_acc_le rest [c] g r h
        simp at h3
        intro hg
        simp [hg] at h3

theorem tryMatchAt_decomp (l t r : List Char) (h : tryMatchAt l = some (t, r)) :
    l = '*' :: '*' :: (t ++ '*' :: '*' :: r) ∧ t ≠ [] := by
  match l with
  | [] => simp [tryMatchAt] at h
  | [c] => simp [tryMatchAt] at h
  | c1 :: c2 :: rest =>
    simp only [tryMatchAt] at h
    split at h
    · rename_i hc
      obtain ⟨rfl, rfl⟩ := hc
      have h2 := scanClose_decomp rest t r h
      exact ⟨by rw [h2.1], h2.2⟩
    · exact absurd h (by simp)

theorem findMatch_decomp : ∀ (l p t r : List Char), findMatch l = some (p, t, r) →
    l = p ++ '*' :: '*' :: (t ++ '*' :: '*' :: r) ∧
      tryMatchAt ('*' :: '*' :: (t ++ '*' :: '*' :: r)) = some (t, r) ∧ t ≠ [] := by
  intro l
  induction l with
  | nil => intro p t r h; simp [findMatch] at h
  | cons c rest ih =>
    intro p t r h
    simp only [findMatch] at h
    cases htm : tryMatchAt (c :: rest) with
    | some tr =>
      obtain ⟨t', r'⟩ := tr
      rw [htm] at h
      simp at h
      obtain ⟨rfl, rfl, rfl⟩ := h
      have hd := tryMatchAt_decomp _ _ _ htm
      refine ⟨by simpa using hd.1, ?_, hd.2⟩
      rw [← hd.1]
      exact htm
    | none =>
      rw [htm] at h
      cases hfm : findMatch rest with
      | none => rw [hfm] at h; exact absurd h (by simp)
      | some ptr =>
        obtain ⟨p', t', r'⟩ := ptr
        rw [hfm] at h
        simp at h
        have h2 := ih p' t' r' hfm
        obtain ⟨rfl, rfl, rfl⟩ := h
        exact ⟨by rw [List.cons_append, ← h2.1], h2.2.1, h2.2.2⟩

theorem findMatch_lt (l p t r : List Char) (h : findMatch l = some (p, t, r)) :
    r.length < l.length := by
  have h2 := (findMatch_decomp l p t r h).1
  have h3 := congrArg List.length h2
  simp [List.length_append] at h3
  omega

theorem findMatch_of_tryMatchAt (x t r : List Char) (h : tryMatchAt x = some (t, r)) :
    findMatch x = some ([], t, r) := by
  cases x with
  | nil => simp [tryMatchAt] at h
  | cons c rest => simp [findMatch, h]

theorem collectF_congr : ∀ (f1 f2 : Nat) (l : List Char),
    l.length ≤ f1 → l.length ≤ f2 → collectF f1 l = collectF f2 l := by
  intro f1
  induction f1 with
  | zero =>
    intro f2 l h1 h2
    have hl : l = [] := List.eq_nil_of_length_eq_zero (Nat.le_zero.mp h1)
    subst hl
    cases f2 <;> simp [collectF, findMatch]
  | succ f ih =>
    intro f2 l h1 h2
    cases f2 with
    | zero =>
      have hl : l = [] := List.eq_nil_of_length_eq_zero (Nat.le_zero.mp h2)
      subst hl
      simp [collectF, findMatch]
    | succ f2' =>
      cases hfm : findMatch l with
      | none => simp only [collectF, hfm]
      | some ptr =>
        obtain ⟨p, t, r⟩ := ptr
        have hlt := findMatch_lt l p t r hfm
        simp only [collectF, hfm]
        rw [ih f2' r (by omega) (by omega)]

theorem collect_eq_none (l : List Char) (h : findMatch l = none) : collect l = none := by
  cases l with
  | nil => rfl
  | cons c rest => simp [collect, collectF, h]

theorem collect_cons_none (l p t r : List Char) (h : findMatch l = some (p, t, r))
    (h2 : collect r = none) : collect l = some (p, [(t, r)]) := by
  cases l with
  | nil => simp [findMatch] at h
  | cons c rest =>
    have hlt := findMatch_lt _ _ _ _ h
    simp only [List.length_cons] at hlt
    simp only [collect, List.length_cons, collectF, h]
    rw [collectF_congr rest.length r.length r (by omega) le_rfl]
    rw [show collectF r.length r = collect r from rfl, h2]

theorem collect_cons_some (l p t r g : List Char) (ps : List (List Char × List Char))
    (h : findMatch l = some (p, t, r)) (h2 : collect r = some (g, ps)) :
    collect l = some (p, (t, g) :: ps) := by
  cases l with
  | nil => simp [findMatch] at h
  | cons c rest =>
    have hlt := findMatch_lt _ _ _ _ h
    simp only [List.length_cons] at hlt
    simp only [collect, List.length_cons, collectF, h]
    rw [collectF_congr rest.length r.length r (by omega) le_rfl]
    rw [show collectF r.length r = collect r from rfl, h2]

/-- The matches decompose the input: the text before the first match, then for
each match its markers, its title and the raw span that follows it. -/
theorem collect_decomp (l lead : List Char) (pairs : List (List Char × List Char))
    (h : collect l = some (lead, pairs)) : l = lead ++ glue pairs := by
  cases hfm : findMatch l with
  | none => rw [collect_eq_none l hfm] at h; exact absurd h (by simp)
  | some ptr =>
    obtain ⟨p, t, r⟩ := ptr
    have hlt := findMatch_lt _ _ _ _ hfm
    have hdec := (findMatch_decomp _ _ _ _ hfm).1
    cases hcr : collect r with
    | none =>
      rw [collect_cons_none _ _ _ _ hfm hcr] at h
      simp at h
      obtain ⟨rfl, rfl⟩ := h
      simpa [glue] using hdec
    | some gps =>
      obtain ⟨g, ps⟩ := gps
      rw [collect_cons_some _ _ _ _ _ _ hfm hcr] at h
      simp at h
      obtain ⟨rfl, rfl⟩ := h
      have ihr := collect_decomp r g ps hcr
      rw [hdec, ihr]
      simp [glue]
termination_by l.length
decreasing_by exact hlt

/-- Every match group (section title) is non-empty: the regex group is `.+?`. -/
theorem collect_titles (l lead : List Char) (pairs : List (List Char × List Char))
    (h : collect l = some (lead, pairs)) :
    pairs.all (fun q => !q.1.isEmpty) = true := by
  cases hfm : findMatch l with
  | none => rw [collect_eq_none l hfm] at h; exact absurd h (by simp)
  | some ptr =>
    obtain ⟨p, t, r⟩ := ptr
    have hlt := findMatch_lt _ _ _ _ hfm
    have hne := (findMatch_decomp _ _ _ _ hfm).2.2
    cases hcr : collect r with
    | none =>
      rw [collect_cons_none _ _ _ _ hfm hcr] at h
      simp at h
      obtain ⟨rfl, rfl⟩ := h
      simpa using hne
    | some gps =>
      obtain ⟨g, ps⟩ := gps
      rw [collect_cons_some _ _ _ _ _ _ hfm hcr] at h
      simp at h
      obtain ⟨rfl, rfl⟩ := h
      have ihr := collect_titles r g ps hcr
      simp at ihr ⊢
      exact ⟨hne, ihr⟩
termination_by l.length
decreasing_by exact hlt

/-- Matching again on the reconstruction of the matches (the input with the
text before the first match removed) yields the same matches, with no leading
text. -/
theorem collect_glue (l lead : List Char) (pairs : List (List Char × List Char))
    (h : collect l = some (lead, pairs)) : collect (glue pairs) = some ([], pairs) := by
  cases hfm : findMatch l with
  | none => rw [collect_eq_none l hfm] at h; exact absurd h (by simp)
  | some ptr =>
    obtain ⟨p, t, r⟩ := ptr
    have hdec := findMatch_decomp _ _ _ _ hfm
    cases hcr : collect r with
    | none =>
      rw [collect_cons_none _ _ _ _ hfm hcr] at h
      simp at h
      obtain ⟨rfl, rfl⟩ := h
      have hg : glue [(t, r)] = '*' :: '*' :: (t ++ '*' :: '*' :: r) := by simp [glue]
      rw [hg]
      have hfm2 := findMatch_of_tryMatchAt _ _ _ hdec.2.1
      rw [collect_cons_none _ _ _ _ hfm2 hcr]
    | some gps =>
      obtain ⟨g, ps⟩ := gps
      rw [collect_cons_some _ _ _ _ _ _ hfm hcr] at h
      simp at h
      obtain ⟨rfl, rfl⟩ := h
      have hr : r = g ++ glue ps := collect_decomp r g ps hcr
      have hg : glue ((t, g) :: ps) = '*' :: '*' :: (t ++ '*' :: '*' :: r) := by
        simp [glue, hr]
      rw [hg]
      have hfm2 := findMatch_of_tryMatchAt _ _ _ hdec.2.1
      rw [collect_cons_some _ _ _ _ _ _ hfm2 hcr]

/-- C3 counterexample: on the input made of the characters of the text
quoted as x space asterisk asterisk T asterisk asterisk space c, concatenating
the returned contents interleaved with the marker-wrapped titles does not
reconstruct the trimmed input: the leading text before the first marker is
discarded and the whitespace around the content span is trimmed away, so the
segmentation is not a lossless re-partition. -/
theorem segment_roundtrip_cex :
    glueSections (parseSections ['x', ' ', '*', '*', 'T', '*', '*', ' ', 'c'])
      ≠ trimL ['x', ' ', '*', '*', 'T', '*', '*', ' ', 'c'] := by decide

/-- C3 (amended): segmentation is a re-partition of the input from the first
marker onward.  Either the regex never matches and the single returned section
carries the whole input unchanged, or the input is exactly the discarded
leading text followed by, for each returned section in order, its title
wrapped in the original markers and the raw span whose trim is the section's
content.  Only the leading text and the whitespace surrounding each span are
lost. -/
theorem segment_repartition (l : List Char) :
    (collect l = none ∧ parseSections l = [⟨[], l⟩]) ∨
    ∃ lead pairs, collect l = some (lead, pairs) ∧ l = lead ++ glue pairs ∧
      parseSections l = (pairs.map fun q => Section.mk q.1 (trimL q.2)) := by
  cases hc : collect l with
  | none => exact Or.inl ⟨rfl, by simp [parseSections, hc]⟩
  | some lp =>
    obtain ⟨lead, pairs⟩ := lp
    exact Or.inr ⟨lead, pairs, rfl, collect_decomp l lead pairs hc,
      by simp [parseSections, hc]⟩

/-- C4 counterexample: on the input space a space, which contains no title
marker, the segmenter returns one section whose content is the raw input with
its surrounding whitespace intact, not the trimmed input. -/
theorem segment_noMarker_cex :
    parseSections [' ', 'a', ' '] = [⟨[], [' ', 'a', ' ']⟩] ∧
      trimL [' ', 'a', ' '] ≠ [' ', 'a', ' '] := by decide

/-- C4 (amended): for every raw input in which the title regex never matches,
the segmenter returns exactly one section whose title is empty and whose
content is the input unchanged (the no-marker path does not trim). -/
theorem segment_noMarker (l : List Char) (h : findMatch l = none) :
    parseSections l = [⟨[], l⟩] := by
  simp [parseSections, collect_eq_none l h]

/-- Instance of the C4 theorem at the concrete marker-free input h i. -/
theorem segment_noMarker_inst :
    findMatch ['h', 'i'] = none ∧ parseSections ['h', 'i'] = [⟨[], ['h', 'i']⟩] :=
  ⟨by decide, segment_noMarker ['h', 'i'] (by decide)⟩

/-- C9: for every raw input on which the title regex matches, the segmenter
returns exactly one section per match, in match order, titled by that match's
non-empty group, with content the trimmed span following the match; the text
before the first marker is dropped: the input decomposes as that leading text
followed by the reconstruction of the matches, and running the segmenter on
the input with the leading text removed returns the same sections. -/
theorem segment_markers_spec (l lead : List Char) (pairs : List (List Char × List Char))
    (h : collect l = some (lead, pairs)) :
    parseSections l = (pairs.map fun q => Section.mk q.1 (trimL q.2)) ∧
      pairs.all (fun q => !q.1.isEmpty) = true ∧
      l = lead ++ glue pairs ∧
      parseSections (glue pairs) = parseSections l := by
  refine ⟨by simp [parseSections, h], collect_titles l lead pairs h,
    collect_decomp l lead pairs h, ?_⟩
  simp [parseSections, h, collect_glue l lead pairs h]

/-- Instance of the C9 theorem at `sampleRaw`. -/
theorem segment_markers_spec_inst :
    collect sampleRaw = some (['a', ' '], samplePairs) ∧
      (parseSections sampleRaw = (samplePairs.map fun q => Section.mk q.1 (trimL q.2)) ∧
        samplePairs.all (fun q => !q.1.isEmpty) = true ∧
        sampleRaw = ['a', ' '] ++ glue samplePairs ∧
        parseSections (glue samplePairs) = parseSections sampleRaw) :=
  ⟨by decide, segment_markers_spec sampleRaw ['a', ' '] samplePairs (by decide)⟩

/-- The code's failure-message expression coincides with the amended spec
wording. -/
theorem errorMessageSpec_eq_jsOr (o : Option String) :
    jsOrOptStr o genericErrorMsg = errorMessageSpec o := by
  cases o <;> rfl

/-- The displayed failure message is never empty. -/
theorem errorMessageSpec_ne (e : Option String) : errorMessageSpec e ≠ "" := by
  cases e with
  | none => simp only [errorMessageSpec]; decide
  | some m =>
    simp only [errorMessageSpec]
    split
    · decide
    · assumption

/-- C1: a failed service call whose error body carries a truthy paywall flag
is classified PaywallBlocked, not Error: the paywall flag is set, the page
and word counts are taken from the error body's counts, and no error message
is produced, even though the HTTP call itself failed. -/
theorem errorPaywall_classified (st : AppState) (b : RespBody) (p w : Int)
    (hpw : b.paywall = true) (hp : b.nb_pages = some p) (hw : b.nb_words = some w) :
    outcome (handleSummarize st (CallResult.failure (some b))) =
        OutcomeKind.PaywallBlocked ∧
      (handleSummarize st (CallResult.failure (some b))).paywall = true ∧
      (handleSummarize st (CallResult.failure (some b))).nbPages = some p ∧
      (handleSummarize st (CallResult.failure (some b))).wordCount = w ∧
      (handleSummarize st (CallResult.failure (some b))).error = "" := by
  simp [handleSummarize, paywallTruthy, hpw, hp, hw, outcome, displayText]

/-- Instance of the C1 theorem at the initial state and `paywallBody`. -/
theorem errorPaywall_classified_inst :
    paywallBody.paywall = true ∧ paywallBody.nb_pages = some 120 ∧
      paywallBody.nb_words = some 80000 ∧
      (outcome (handleSummarize initialState (CallResult.failure (some paywallBody))) =
          OutcomeKind.PaywallBlocked ∧
        (handleSummarize initialState (CallResult.failure (some paywallBody))).paywall = true ∧
        (handleSummarize initialState (CallResult.failure (some paywallBody))).nbPages =
          some 120 ∧
        (handleSummarize initialState (CallResult.failure (some paywallBody))).wordCount =
          80000 ∧
        (handleSummarize initialState (CallResult.failure (some paywallBody))).error = "") :=
  ⟨rfl, rfl, rfl, errorPaywall_classified initialState paywallBody 120 80000 rfl rfl rfl⟩

/-- C2: a successful response with a truthy paywall flag is classified
PaywallBlocked regardless of the AI summary content, and the page and word
counts passed into the state equal the body's values exactly. -/
theorem successPaywall_classified (st : AppState) (e : String) (b : RespBody) (p w : Int)
    (hpw : b.paywall = true) (hp : b.nb_pages = some p) (hw : b.nb_words = some w) :
    outcome (handleSummarize st (CallResult.success e b)) = OutcomeKind.PaywallBlocked ∧
      (handleSummarize st (CallResult.success e b)).nbPages = some p ∧
      (handleSummarize st (CallResult.success e b)).wordCount = w := by
  refine ⟨by simp [outcome, handleSummarize, hpw], by simp [handleSummarize, hp], ?_⟩
  simp only [handleSummarize, hw, jsOrNum]
  split <;> omega

/-- Instance of the C2 theorem: a success body with the paywall flag set and
a non-empty AI summary still classifies as PaywallBlocked. -/
theorem successPaywall_classified_inst :
    ({ paywallBody with ai_summary := some "text" } : RespBody).paywall = true ∧
      (outcome (handleSummarize initialState
            (CallResult.success "0.5s" { paywallBody with ai_summary := some "text" })) =
          OutcomeKind.PaywallBlocked ∧
        (handleSummarize initialState
            (CallResult.success "0.5s" { paywallBody with ai_summary := some "text" })).nbPages =
          some 120 ∧
        (handleSummarize initialState
            (CallResult.success "0.5s" { paywallBody with ai_summary := some "text" })).wordCount =
          80000) :=
  ⟨rfl, successPaywall_classified initialState "0.5s"
    { paywallBody with ai_summary := some "text" } 120 80000 rfl rfl rfl⟩

/-- C5 counterexample: on a failed call whose error body has no paywall flag
and no message, the displayed message is the code's fixed string, which is not
the string quoted by the claim (document analysis failed, retry or use a
smaller file). -/
theorem errorMessage_cex :
    outcome (handleSummarize initialState (CallResult.failure (some emptyBody))) =
        OutcomeKind.Error ∧
      (handleSummarize initialState (CallResult.failure (some emptyBody))).error ≠
        "document analysis failed, retry or use a smaller file." := by decide

/-- C5 (amended): a failed call whose error body has a falsy paywall flag is
classified Error, and the displayed message is the body's message when a
non-empty one is present, else the fixed generic message
(PDF analysis failed. Please try again or use a smaller file.). -/
theorem errorMessage_fallback (st : AppState) (b : RespBody) (hpw : b.paywall = false) :
    outcome (handleSummarize st (CallResult.failure (some b))) = OutcomeKind.Error ∧
      (handleSummarize st (CallResult.failure (some b))).error = errorMessageSpec b.error := by
  have hmsg : (handleSummarize st (CallResult.failure (some b))).error =
      errorMessageSpec b.error := by
    simp [handleSummarize, paywallTruthy, hpw, errorMessageSpec_eq_jsOr]
  refine ⟨?_, hmsg⟩
  simp [outcome, hmsg, errorMessageSpec_ne]

/-- Instance of the C5 theorem at the initial state and `msgBody`. -/
theorem errorMessage_fallback_inst :
    msgBody.paywall = false ∧
      (outcome (handleSummarize initialState (CallResult.failure (some msgBody))) =
          OutcomeKind.Error ∧
        (handleSummarize initialState (CallResult.failure (some msgBody))).error =
          errorMessageSpec msgBody.error) :=
  ⟨rfl, errorMessage_fallback initialState msgBody rfl⟩

/-- C6: after a successful call the display text is the AI summary when
non-empty, else the plain summary, else empty — and on the spec's scenario
body (empty AI summary, plain summary present, ten words, no paywall) the
outcome is Success with display text plain. -/
theorem displayText_selection (st : AppState) (e : String) (b : RespBody) :
    displayText (handleSummarize st (CallResult.success e b)) = displayTextSpec b ∧
      outcome (handleSummarize initialState (CallResult.success e plainBody)) =
        OutcomeKind.Success ∧
      displayText (handleSummarize initialState (CallResult.success e plainBody)) =
        "plain" := by
  refine ⟨?_, ?_, ?_⟩
  · cases hai : b.ai_summary <;> cases hs : b.summary <;>
      simp only [displayText, handleSummarize, displayTextSpec, jsOrOptStr, jsOrStr, hai,
        hs, Option.getD_some, Option.getD_none, ne_eq] <;>
      split_ifs <;> simp_all
  · simp [outcome, handleSummarize, displayText, plainBody, jsOrOptStr, jsOrStr]
  · simp [displayText, handleSummarize, plainBody, jsOrOptStr, jsOrStr]

/-- C7: admin validation fails closed and never throws: with no stored token
it returns false whatever the remote endpoint would do (no remote call is
consulted), and with a stored token whose remote check throws it returns
false. -/
theorem validateAdmin_failClosed :
    (∀ check : String → AuthResult, validateAdmin none check = false) ∧
      (∀ (tok : String) (check : String → AuthResult),
        check tok = AuthResult.fail → validateAdmin (some tok) check = false) := by
  refine ⟨fun check => rfl, fun tok check h => ?_⟩
  simp only [validateAdmin, h]
  split <;> rfl

/-- Instance of the C7 theorem at a concrete token and a throwing remote. -/
theorem validateAdmin_failClosed_inst :
    validateAdmin (some "tok") (fun _ => AuthResult.fail) = false :=
  validateAdmin_failClosed.2 "tok" (fun _ => AuthResult.fail) rfl

/-- C8: entering a token whose remote validation answers admin false leaves
the admin flag off while the trimmed token remains in persistent storage; the
failed validation does not clear it. -/
theorem setToken_rejected_keepsStored (m : AdminModel) (t : String)
    (check : String → AuthResult) (h1 : m.adminOn = false) (h2 : trimS t ≠ "")
    (h3 : check (trimS t) = AuthResult.ok false) :
    (adminPillClick m (some t) check).adminOn = false ∧
      (adminPillClick m (some t) check).stored = some (trimS t) := by
  have ht1 : t ≠ "" := by
    intro hteq
    subst hteq
    exact h2 (by decide)
  simp [adminPillClick, h1, ht1, h2, validateAdmin, h3]

/-- Instance of the C8 theorem: token bad, remote answers admin false. -/
theorem setToken_rejected_keepsStored_inst :
    (⟨none, false⟩ : AdminModel).adminOn = false ∧ trimS "bad" ≠ "" ∧
      ((adminPillClick ⟨none, false⟩ (some "bad") (fun _ => AuthResult.ok false)).adminOn =
          false ∧
        (adminPillClick ⟨none, false⟩ (some "bad") (fun _ => AuthResult.ok false)).stored =
          some (trimS "bad")) :=
  ⟨rfl, by decide, setToken_rejected_keepsStored ⟨none, false⟩ "bad"
    (fun _ => AuthResult.ok false) rfl (by decide) rfl⟩

/-- C10 counterexample: a failure without a paywall flag does not write only
the error message field: starting from a state whose paywall flag is set, the
call clears the paywall flag (the handler resets it before the request). -/
theorem errorFrame_cex :
    paywallTruthy (some emptyBody) = false ∧
      ({ initialState with paywall := true } : AppState).paywall = true ∧
      (handleSummarize { initialState with paywall := true }
          (CallResult.failure (some emptyBody))).paywall = false := by decide

/-- C10 (amended): when a summarization call fails without a truthy paywall
flag in its error body, the summary texts, word count, page count and
processing time keep their values; the error message is written, and the
paywall and in-flight flags are reset to false — nothing else changes. -/
theorem errorFrame (st : AppState) (errData : Option RespBody)
    (hpw : paywallTruthy errData = false) :
    (handleSummarize st (CallResult.failure errData)).summaryRaw = st.summaryRaw ∧
      (handleSummarize st (CallResult.failure errData)).aiSummary = st.aiSummary ∧
      (handleSummarize st (CallResult.failure errData)).wordCount = st.wordCount ∧
      (handleSummarize st (CallResult.failure errData)).nbPages = st.nbPages ∧
      (handleSummarize st (CallResult.failure errData)).processingTime = st.processingTime ∧
      (handleSummarize st (CallResult.failure errData)).paywall = false ∧
      (handleSummarize st (CallResult.failure errData)).isProcessing = false ∧
      (handleSummarize st (CallResult.failure errData)).error =
        errorMessageSpec (errData.bind RespBody.error) := by
  simp [handleSummarize, hpw, errorMessageSpec_eq_jsOr]

/-- Instance of the C10 theorem at `busyState` and `emptyBody`. -/
theorem errorFrame_inst :
    paywallTruthy (some emptyBody) = false ∧
      ((handleSummarize busyState (CallResult.failure (some emptyBody))).summaryRaw =
          busyState.summaryRaw ∧
        (handleSummarize busyState (CallResult.failure (some emptyBody))).aiSummary =
          busyState.aiSummary ∧
        (handleSummarize busyState (CallResult.failure (some emptyBody))).wordCount =
          busyState.wordCount ∧
        (handleSummarize busyState (CallResult.failure (some emptyBody))).nbPages =
          busyState.nbPages ∧
        (handleSummarize busyState (CallResult.failure (some emptyBody))).processingTime =
          busyState.processingTime ∧
        (handleSummarize busyState (CallResult.failure (some emptyBody))).paywall = false ∧
        (handleSummarize busyState (CallResult.failure (some emptyBody))).isProcessing =
          false ∧
        (handleSummarize busyState (CallResult.failure (some emptyBody))).error =
          errorMessageSpec ((some emptyBody).bind RespBody.error)) :=
  ⟨rfl, errorFrame busyState (some emptyBody) rfl⟩

end SmartPdf
